import Mathlib

/-!
Verification of the Elehant water-meter BLE integration
(`custom_components/elehant_water_new`).

The development shallowly embeds the pure core of `scanner.py` and
`const.py`:

* `extract_serial_from_mac` — serial extraction from a MAC address string;
* `parse_elehant_data` — the manufacturer-data decoder;
* `process_packet` / `detection_callback` — the packet pipeline acting on
  the coordinator store (`ElehantScanner._process_packet` and
  `ElehantScanner._detection_callback`);
* `async_start` / `async_stop` — the scanner lifecycle state machine.

Byte strings are modelled as `List Nat` (Python `bytes` guarantees each
element is below 256; hypotheses state this where a claim needs it).
Python `float` division by `10.0` is modelled as exact division in `ℚ`.
Fallible operations return `Option`; the blanket `except Exception`
handlers of the source correspond to `Option.bind` chains that collapse
any failure to `none`.
-/

/-! ### Constants (from `const.py`) -/

/-- `EXPECTED_FIRST_BYTE = 0x80` (`const.py`). -/
def EXPECTED_FIRST_BYTE : Nat := 0x80

/-- `IDX_SERIAL_START = 6` (`const.py`). -/
def IDX_SERIAL_START : Nat := 6

/-- `IDX_COUNTER_START = 9` (`const.py`). -/
def IDX_COUNTER_START : Nat := 9

/-- `IDX_BATTERY = 13` (`const.py`). -/
def IDX_BATTERY : Nat := 13

/-- `IDX_TEMP_START = 14` (`const.py`). -/
def IDX_TEMP_START : Nat := 14

/-! ### Hexadecimal field parsing

`extract_serial_from_mac` calls Python's built-in `int(part, 16)` on each
MAC field.  That built-in is not part of this repository, so it is
modelled here: an optional single sign followed by a nonempty run of
hexadecimal digits (the `0x` prefix, underscores and surrounding
whitespace that CPython additionally tolerates never occur in MAC
address fields and are left out of the model).  A string outside this
fragment raises `ValueError` in Python and parses to `none` here. -/

/-- Value of a single hexadecimal digit, or `none`. -/
def hexVal (c : Char) : Option Nat :=
  if '0' ≤ c ∧ c ≤ '9' then some (c.toNat - '0'.toNat)
  else if 'a' ≤ c ∧ c ≤ 'f' then some (c.toNat - 'a'.toNat + 10)
  else if 'A' ≤ c ∧ c ≤ 'F' then some (c.toNat - 'A'.toNat + 10)
  else none

/-- Accumulating parse of a run of hexadecimal digits. -/
def parseHexNatAux : Nat → List Char → Option Nat
  | acc, [] => some acc
  | acc, c :: cs =>
    match hexVal c with
    | some v => parseHexNatAux (acc * 16 + v) cs
    | none => none

/-- Modelled from the spec: Python's built-in `int(s, 16)` (not part of
this repository), restricted to an optional sign followed by hex digits. -/
def parseHexPyInt (s : String) : Option Int :=
  match s.toList with
  | [] => none
  | '-' :: rest =>
    if rest = [] then none
    else (parseHexNatAux 0 rest).map (fun n => -(n : Int))
  | '+' :: rest =>
    if rest = [] then none
    else (parseHexNatAux 0 rest).map (fun n => (n : Int))
  | l => (parseHexNatAux 0 l).map (fun n => (n : Int))

/-! ### `extract_serial_from_mac` (`scanner.py`, lines 28–50) -/

/-- Python `s.split(":")` on the character list: every occurrence of the
separator starts a new field, empty fields included, and the empty
string splits to `[""]`.  (Equivalent to `String.splitOn`, but defined
by structural recursion.) -/
def splitOnColon : List Char → List (List Char)
  | [] => [[]]
  | c :: cs =>
    match splitOnColon cs with
    | [] => [[]]
    | h :: t => if c = ':' then [] :: h :: t else (c :: h) :: t

/-- Python `mac.split(":")`. -/
def pySplitColon (s : String) : List String :=
  (splitOnColon s.toList).map (fun l => ⟨l⟩)

/-- `extract_serial_from_mac(mac)`: split on `":"`; exactly 6 fields are
required; fields 3, 4, 5 are parsed as hex integers and combined as
`(p3 << 16) + (p4 << 8) + p5` (written with multiplications, which agrees
with Python's shifts on all integers); the decimal string of the result
is returned.  A failing split or parse returns `None`/`none`. -/
def extract_serial_from_mac (mac : String) : Option String :=
  match pySplitColon mac with
  | [_, _, _, p3, p4, p5] => do
    let a ← parseHexPyInt p3
    let b ← parseHexPyInt p4
    let c ← parseHexPyInt p5
    pure (toString (a * 65536 + b * 256 + c))
  | _ => none

/-! ### `parse_elehant_data` (`scanner.py`, lines 53–90) -/

/-- Python `int.from_bytes(l, byteorder="big")`. -/
def intFromBytesBE (l : List Nat) : Nat :=
  l.foldl (fun acc b => acc * 256 + b) 0

/-- Python `int.from_bytes(l, byteorder="little")`. -/
def intFromBytesLE (l : List Nat) : Nat :=
  intFromBytesBE l.reverse

/-- Python `struct.unpack(">h", l)[0]`: exactly two bytes interpreted as a
big-endian signed 16-bit integer; any other length raises `struct.error`
(modelled as `none`, collapsed by the caller's `except` into `None`). -/
def unpackInt16BE (l : List Nat) : Option Int :=
  match l with
  | [b0, b1] =>
    let t := b0 * 256 + b1
    some (if t < 32768 then (t : Int) else (t : Int) - 65536)
  | _ => none

/-- The dictionary returned by a successful `parse_elehant_data`. -/
structure ElehantReading where
  serial : String
  counter_liters : ℚ
  battery : Nat
  temperature : ℚ
deriving DecidableEq, Repr

/-- `parse_elehant_data(data)`: length guard (`< 16` → `None`), first-byte
guard (`data[0] != EXPECTED_FIRST_BYTE` → `None`), then serial (3 bytes
big-endian at index 6), counter (4 bytes little-endian at index 9, value
divided by 10), battery (byte 13, unvalidated), temperature (signed
16-bit big-endian at index 14, divided by 10).  Slices are modelled by
`drop`/`take`; the indexed access and `unpack` sit inside the source's
`try`/`except Exception` block, so their failure yields `none`. -/
def parse_elehant_data (data : List Nat) : Option ElehantReading :=
  if h : data.length < 16 then none
  else
    have h0 : 0 < data.length := by omega
    if data.get ⟨0, h0⟩ ≠ EXPECTED_FIRST_BYTE then none
    else do
      let serial := intFromBytesBE ((data.drop IDX_SERIAL_START).take 3)
      let counter_raw := intFromBytesLE ((data.drop IDX_COUNTER_START).take 4)
      let counter_value : ℚ := (counter_raw : ℚ) / 10
      let battery ← data.get? IDX_BATTERY
      let t ← unpackInt16BE ((data.drop IDX_TEMP_START).take 2)
      pure {
        serial := toString serial
        counter_liters := counter_value
        battery := battery
        temperature := (t : ℚ) / 10
      }

/-! ### The coordinator store and the packet pipeline
(`ElehantScanner._process_packet` and `._detection_callback`,
`scanner.py`, lines 157–216)

`self.coordinators` maps a configured device id (a decimal serial
string) to its coordinator; `coordinator.async_set_updated_data(...)`
replaces that coordinator's data with the freshly decoded reading.  The
store is modelled as an association list from device id to the last
reading set (the `unit` and `last_seen` entries of the pushed dictionary
come from the config entry and the event-loop clock, environment values
outside the pure model).  Each method additionally reports the update it
performed, if any, as `some (device_id, reading)` — this mirrors the
single `async_set_updated_data` call site. -/

/-- The coordinator mapping: configured device id → last pushed reading. -/
abbrev CoordStore := List (String × Option ElehantReading)

/-- Python `mac_serial not in self.coordinators` (key membership). -/
def containsKey (st : CoordStore) (k : String) : Bool :=
  st.any (fun p => p.1 = k)

/-- `coordinator.async_set_updated_data`: replace the reading stored for
key `k` (the pipeline only calls this when `k` is present). -/
def setKey (st : CoordStore) (k : String) (v : ElehantReading) : CoordStore :=
  st.map (fun p => if p.1 = k then (p.1, some v) else p)

/-- `ElehantScanner._process_packet(mac, data)`: extract the serial from
the MAC (a falsy result — `None` or the impossible empty string — stops
processing), require the serial to be configured, decode the payload
(a falsy result — `None`; the returned dict is never empty — stops
processing), require the decoded serial to equal the MAC serial, and
only then push the reading to that device's coordinator. -/
def process_packet (st : CoordStore) (mac : String) (data : List Nat) :
    CoordStore × Option (String × ElehantReading) :=
  match extract_serial_from_mac mac with
  | none => (st, none)
  | some mac_serial =>
    if mac_serial = "" then (st, none)
    else if ¬ containsKey st mac_serial then (st, none)
    else
      match parse_elehant_data data with
      | none => (st, none)
      | some parsed =>
        if parsed.serial ≠ mac_serial then (st, none)
        else (setKey st mac_serial parsed, some (mac_serial, parsed))

/-- The level-1 filter of `_detection_callback`:
`data and data[0] == EXPECTED_FIRST_BYTE`. -/
def matchesElehant (d : List Nat) : Bool :=
  match d with
  | [] => false
  | b :: _ => b == EXPECTED_FIRST_BYTE

/-- `ElehantScanner._detection_callback`: walk the advertisement's
manufacturer-data entries in order; the first entry that is nonempty and
starts with `EXPECTED_FIRST_BYTE` is handed to `_process_packet` and the
callback returns; all later entries are ignored.  An empty map (falsy)
returns immediately. -/
def detection_callback (st : CoordStore) (mac : String)
    (manufacturer_data : List (Nat × List Nat)) :
    CoordStore × Option (String × ElehantReading) :=
  match manufacturer_data with
  | [] => (st, none)
  | (_, d) :: rest =>
    match d with
    | [] => detection_callback st mac rest
    | b :: _ =>
      if b = EXPECTED_FIRST_BYTE then process_packet st mac d
      else detection_callback st mac rest

/-! ### The scanner lifecycle
(`ElehantScanner.async_start` / `.async_stop` / `._run_scanner`,
`scanner.py`, lines 111–155)

The lifecycle state is the pair of the `self.scanner` handle and the
`self._scan_task` handle; the handles' identities are irrelevant, so both
are `Option Unit`.  Neither method contains a `raise`, and `async_stop`
swallows the `CancelledError` of its own cancellation, so both are total
functions on the state; besides the new state each returns the log
records it emits.  `async_stop` cancels and awaits the scan task; the
await runs `_run_scanner`'s `finally` block, which stops the Bleak
scanner and clears `self.scanner` — hence one `async_stop` on a state
with a live task clears both handles. -/

/-- Log records emitted by the lifecycle methods. -/
inductive LogEvent where
  | warnAlreadyRunning
  | infoStarting
  | infoTaskCancelled
  | infoScannerStopped
  | infoElehantStopped
deriving DecidableEq, Repr

/-- The `self.scanner` / `self._scan_task` pair of `ElehantScanner`. -/
structure ScannerState where
  scanner : Option Unit
  scanTask : Option Unit
deriving DecidableEq, Repr

/-- `ElehantScanner.async_start`: when `self.scanner` is truthy, log the
"Scanner already running" warning and return (a plain early return — the
method has no error result); otherwise create the scanner and the
background scan task. -/
def async_start (s : ScannerState) : ScannerState × List LogEvent :=
  if s.scanner.isSome then (s, [.warnAlreadyRunning])
  else ({ scanner := some (), scanTask := some () }, [.infoStarting])

/-- `ElehantScanner.async_stop`: when a scan task exists, cancel it and
await it — running `_run_scanner`'s `except CancelledError` and `finally`
blocks, which stop the Bleak scanner and clear `self.scanner` — then
clear `self._scan_task`; in every case log "Elehant scanner stopped". -/
def async_stop (s : ScannerState) : ScannerState × List LogEvent :=
  if s.scanTask.isSome then
    ({ scanner := none, scanTask := none },
      [.infoTaskCancelled, .infoScannerStopped, .infoElehantStopped])
  else (s, [.infoElehantStopped])

/-- Scanner states reachable from the freshly constructed scanner
(`__init__` sets both handles to `None`) by the public lifecycle calls. -/
inductive ReachableScanner : ScannerState → Prop where
  | init : ReachableScanner ⟨none, none⟩
  | start {s} : ReachableScanner s → ReachableScanner (async_start s).1
  | stop {s} : ReachableScanner s → ReachableScanner (async_stop s).1

/-! ### Concrete payload builder (for the counter-scaling claim) -/

/-- A well-formed 16-byte manufacturer payload whose counter field holds
the little-endian encoding of `r`; the other fields are fixed bytes
(serial `0x002BC1 = 11201`, battery 50, temperature 0). -/
def payload_with (r : Nat) : List Nat :=
  [0x80, 0x5B, 0x05, 0x00, 0x0F, 0x00,
   0x00, 0x2B, 0xC1,
   r % 256, r / 256 % 256, r / 65536 % 256, r / 16777216 % 256,
   50, 0x00, 0x00]

/-! ### Helper lemmas -/

/-- Evaluating `parse_elehant_data` on an explicit 16-byte payload. -/
theorem parse_elehant_data_explicit
    (b0 b1 b2 b3 b4 b5 b6 b7 b8 b9 b10 b11 b12 b13 b14 b15 : Nat) :
    parse_elehant_data
        [b0, b1, b2, b3, b4, b5, b6, b7, b8, b9, b10, b11, b12, b13, b14, b15] =
      if b0 ≠ EXPECTED_FIRST_BYTE then none
      else
        some {
          serial := toString (intFromBytesBE [b6, b7, b8])
          counter_liters := (intFromBytesLE [b9, b10, b11, b12] : ℚ) / 10
          battery := b13
          temperature :=
            (((if b14 * 256 + b15 < 32768 then ((b14 * 256 + b15 : Nat) : Int)
               else ((b14 * 256 + b15 : Nat) : Int) - 65536 : Int)) : ℚ) / 10
        } := rfl

/-! ### Claim C3 -/

/-- Claim C3: the decoder is total over arbitrary byte strings — in this
embedding it is a total function into `Option` — and every payload
shorter than the declared minimum length 16 (in particular every length
0 through 15) is rejected with `none` by the initial length guard,
before any byte of the payload is accessed. -/
theorem C3_short_payload_returns_none (data : List Nat)
    (h : data.length < 16) : parse_elehant_data data = none := by
  unfold parse_elehant_data
  rw [dif_pos h]

/-- Witness for C3 at a concrete length-15 payload. -/
theorem C3_short_payload_returns_none_witness :
    (List.replicate 15 0).length < 16 ∧
      parse_elehant_data (List.replicate 15 0) = none :=
  ⟨by decide, C3_short_payload_returns_none (List.replicate 15 0) (by decide)⟩

/-! ### Claim C4 -/

/-- Claim C4: any sufficiently long payload whose byte 0 differs from
`EXPECTED_FIRST_BYTE = 0x80` decodes to `none`: no reading, hence no
field of a reading, is produced. -/
theorem C4_marker_mismatch_returns_none (b0 : Nat) (rest : List Nat)
    (hlen : 16 ≤ (b0 :: rest).length) (hb : b0 ≠ EXPECTED_FIRST_BYTE) :
    parse_elehant_data (b0 :: rest) = none := by
  unfold parse_elehant_data
  rw [dif_neg (by omega)]
  exact if_pos hb

/-- Witness for C4 at a concrete all-zero payload of length 16. -/
theorem C4_marker_mismatch_returns_none_witness :
    16 ≤ (0 :: List.replicate 15 0).length ∧ (0 : Nat) ≠ EXPECTED_FIRST_BYTE ∧
      parse_elehant_data (0 :: List.replicate 15 0) = none :=
  ⟨by decide, by decide,
    C4_marker_mismatch_returns_none 0 (List.replicate 15 0) (by decide) (by decide)⟩

/-! ### Claim C5 -/

/-- Claim C5: for every raw 32-bit counter `r` embedded little-endian at
the counter offset of a valid payload, the decoded `counter_liters`
equals `r` divided by the scale factor 10 of this meter family, exactly
(the Python `float` division is modelled as exact division in `ℚ`). -/
theorem C5_counter_exact_scaling (r : Nat) (h : r < 4294967296) :
    (parse_elehant_data (payload_with r)).map ElehantReading.counter_liters =
      some ((r : ℚ) / 10) := by
  have hle : intFromBytesLE
      [r % 256, r / 256 % 256, r / 65536 % 256, r / 16777216 % 256] = r := by
    unfold intFromBytesLE intFromBytesBE
    simp only [List.reverse_cons, List.reverse_nil, List.nil_append,
      List.cons_append, List.foldl]
    omega
  rw [show payload_with r =
        [0x80, 0x5B, 0x05, 0x00, 0x0F, 0x00, 0x00, 0x2B, 0xC1,
         r % 256, r / 256 % 256, r / 65536 % 256, r / 16777216 % 256,
         50, 0x00, 0x00] from rfl,
      parse_elehant_data_explicit]
  rw [if_neg (by decide)]
  rw [hle]
  rfl

/-- Witness for C5 at the boundary raw counters 0, 1 and `u32::MAX`. -/
theorem C5_counter_exact_scaling_witness :
    ((0 : Nat) < 4294967296 ∧
      (parse_elehant_data (payload_with 0)).map ElehantReading.counter_liters =
        some (((0 : Nat) : ℚ) / 10)) ∧
    ((1 : Nat) < 4294967296 ∧
      (parse_elehant_data (payload_with 1)).map ElehantReading.counter_liters =
        some (((1 : Nat) : ℚ) / 10)) ∧
    ((4294967295 : Nat) < 4294967296 ∧
      (parse_elehant_data (payload_with 4294967295)).map ElehantReading.counter_liters =
        some (((4294967295 : Nat) : ℚ) / 10)) :=
  ⟨⟨by decide, C5_counter_exact_scaling 0 (by decide)⟩,
   ⟨by decide, C5_counter_exact_scaling 1 (by decide)⟩,
   ⟨by decide, C5_counter_exact_scaling 4294967295 (by decide)⟩⟩

/-! ### Claim C6 -/

/-- Counterexample for C6: the address `"00:00:00:00:00:FFF"` does not
consist of six octets — its last field parses to 4095, which exceeds the
octet range 0–255 — yet `extract_serial_from_mac` returns `some "4095"`
instead of the `none` the claim requires for a malformed address. -/
theorem C6_counterexample_oversized_field :
    (pySplitColon "00:00:00:00:00:FFF").length = 6 ∧
      parseHexPyInt "FFF" = some 4095 ∧ ¬ (4095 : Int) ≤ 255 ∧
      extract_serial_from_mac "00:00:00:00:00:FFF" = some "4095" := by
  decide

/-- Claim C6 (amended): `extract_serial_from_mac` returns `none` whenever
the address does not split into exactly 6 colon-separated fields, and on
exactly 6 fields it parses fields 3, 4, 5 as hexadecimal integers —
without checking that they are single octets — and returns the decimal
string of their big-endian combination `p3·2^16 + p4·2^8 + p5` (or
`none` if a field is not parseable as hexadecimal). -/
theorem C6_extract_serial_characterization (mac : String) :
    ((pySplitColon mac).length ≠ 6 → extract_serial_from_mac mac = none) ∧
    (∀ x0 x1 x2 p3 p4 p5, pySplitColon mac = [x0, x1, x2, p3, p4, p5] →
      extract_serial_from_mac mac =
        (parseHexPyInt p3).bind (fun a =>
          (parseHexPyInt p4).bind (fun b =>
            (parseHexPyInt p5).bind (fun c =>
              some (toString (a * 65536 + b * 256 + c)))))) := by
  constructor
  · intro h
    rcases hs : pySplitColon mac with
      _ | ⟨a, _ | ⟨b, _ | ⟨c, _ | ⟨d, _ | ⟨e, _ | ⟨f, _ | ⟨g, t⟩⟩⟩⟩⟩⟩⟩ <;>
      first
        | exact absurd (by rw [hs]; rfl) h
        | (unfold extract_serial_from_mac; rw [hs])
  · intro x0 x1 x2 p3 p4 p5 hs
    unfold extract_serial_from_mac
    rw [hs]
    rfl

/-- Witness for the amended C6: a 6-field address combines big-endian, a
3-field address is rejected. -/
theorem C6_extract_serial_characterization_witness :
    extract_serial_from_mac "AA:BB:CC:01:02:03" = some "66051" ∧
      extract_serial_from_mac "AA:BB:CC" = none := by
  constructor
  · have h := (C6_extract_serial_characterization "AA:BB:CC:01:02:03").2
      "AA" "BB" "CC" "01" "02" "03" (by decide)
    rw [h]; decide
  · exact (C6_extract_serial_characterization "AA:BB:CC").1 (by decide)

/-! ### Claim C9 -/

/-- Counterexample for C9: a well-formed payload whose battery byte is
200 decodes successfully to a reading with `battery = 200 > 100`; the
decoder does not validate the 0–100 range. -/
theorem C9_counterexample_battery_200 :
    (parse_elehant_data
        [0x80, 0x5B, 0x05, 0x00, 0x0F, 0x00, 0x00, 0x00, 0x05,
         0x01, 0x00, 0x00, 0x00, 200, 0x00, 0x00]).map
      ElehantReading.battery = some 200 ∧ 100 < 200 := by
  decide

/-- Claim C9 (amended): the battery field of every reading produced by a
successful decode is the raw byte at index 13 of the payload, so it lies
between 0 and 255 inclusive; the decoder performs no 0–100 validation. -/
theorem C9_battery_is_raw_byte (data : List Nat) (r : ElehantReading)
    (hbytes : ∀ b ∈ data, b < 256)
    (hp : parse_elehant_data data = some r) : r.battery ≤ 255 := by
  unfold parse_elehant_data at hp
  split at hp
  · exact absurd hp (by simp)
  · dsimp only [] at hp
    split at hp
    · exact absurd hp (by simp)
    · simp only [Option.bind_eq_bind', Option.bind_eq_some, Option.pure_def,
        Option.some.injEq] at hp
      obtain ⟨b, h13, t, ht, hr⟩ := hp
      have hb : b ∈ data := List.get?_mem h13
      have := hbytes b hb
      cases hr
      simp only []
      omega

/-- Witness for the amended C9 at a concrete payload. -/
theorem C9_battery_is_raw_byte_witness :
    ((parse_elehant_data
        [0x80, 0x5B, 0x05, 0x00, 0x0F, 0x00, 0x00, 0x00, 0x05,
         0x01, 0x00, 0x00, 0x00, 255, 0x00, 0x00]).map
      ElehantReading.battery).getD 0 ≤ 255 := by
  cases hp : parse_elehant_data
      [0x80, 0x5B, 0x05, 0x00, 0x0F, 0x00, 0x00, 0x00, 0x05,
       0x01, 0x00, 0x00, 0x00, 255, 0x00, 0x00] with
  | none => simp
  | some r =>
    simpa using C9_battery_is_raw_byte _ r (by decide) hp

/-! ### Claims C1 and C2 — the `_process_packet` pipeline -/

/-- When every check passes, `_process_packet` pushes the reading. -/
theorem process_packet_update (st : CoordStore) (mac : String) (data : List Nat)
    (ms : String) (parsed : ElehantReading)
    (hm : extract_serial_from_mac mac = some ms) (hne : ms ≠ "")
    (hck : containsKey st ms = true)
    (hp : parse_elehant_data data = some parsed) (hs : parsed.serial = ms) :
    process_packet st mac data = (setKey st ms parsed, some (ms, parsed)) := by
  simp [process_packet, hm, hne, hck, hp, hs]

/-- `_process_packet` either performs the single coordinator update with
every check passed, or leaves the store untouched and performs none. -/
theorem process_packet_spec (st : CoordStore) (mac : String) (data : List Nat) :
    (∃ ms parsed,
        extract_serial_from_mac mac = some ms ∧ ms ≠ "" ∧
        containsKey st ms = true ∧ parse_elehant_data data = some parsed ∧
        parsed.serial = ms ∧
        process_packet st mac data = (setKey st ms parsed, some (ms, parsed))) ∨
    process_packet st mac data = (st, none) := by
  cases hm : extract_serial_from_mac mac with
  | none => right; simp [process_packet, hm]
  | some ms =>
    by_cases hne : ms = ""
    · right; simp [process_packet, hm, hne]
    · by_cases hck : containsKey st ms = true
      · cases hp : parse_elehant_data data with
        | none => right; simp [process_packet, hm, hne, hck, hp]
        | some parsed =>
          by_cases hs : parsed.serial = ms
          · exact Or.inl ⟨ms, parsed, rfl, hne, hck, rfl, hs,
              process_packet_update st mac data ms parsed hm hne hck hp hs⟩
          · right; simp [process_packet, hm, hne, hck, hp, hs]
      · right; simp [process_packet, hm, hne, hck]

/-- Counterexample for C1: for the MAC `"AA:AA:AA:00:2B:C1"` and the
valid payload `payload_with 0` the MAC-derived serial and the payload
serial agree (both `"11201"`), yet with an empty coordinator mapping no
store entry is created or mutated and no update is pushed — the
address/payload serial agreement alone does not imply an update. -/
theorem C1_counterexample_match_without_update :
    extract_serial_from_mac "AA:AA:AA:00:2B:C1" = some "11201" ∧
      (parse_elehant_data (payload_with 0)).map ElehantReading.serial =
        some "11201" ∧
      process_packet [] "AA:AA:AA:00:2B:C1" (payload_with 0) = ([], none) := by
  refine ⟨by decide, by decide, ?_⟩
  decide

/-- Claim C1 (amended): a coordinator update is pushed iff the serial
extraction from the MAC succeeds (with the never-empty decimal string),
that serial is configured, the payload decodes, and the payload serial
equals the MAC serial; and whenever no update is pushed — in particular
whenever the two serials differ — the store is left exactly as it was. -/
theorem C1_update_iff_serials_match (st : CoordStore) (mac : String)
    (data : List Nat) :
    ((process_packet st mac data).2.isSome = true ↔
      ∃ ms parsed,
        extract_serial_from_mac mac = some ms ∧ ms ≠ "" ∧
        containsKey st ms = true ∧ parse_elehant_data data = some parsed ∧
        parsed.serial = ms) ∧
    ((process_packet st mac data).2 = none →
      (process_packet st mac data).1 = st) := by
  constructor
  · constructor
    · intro h
      rcases process_packet_spec st mac data with
        ⟨ms, parsed, hm, hne, hck, hp, hs, _⟩ | heq
      · exact ⟨ms, parsed, hm, hne, hck, hp, hs⟩
      · rw [heq] at h
        simp at h
    · rintro ⟨ms, parsed, hm, hne, hck, hp, hs⟩
      rw [process_packet_update st mac data ms parsed hm hne hck hp hs]
      rfl
  · intro h
    rcases process_packet_spec st mac data with
      ⟨ms, parsed, hm, hne, hck, hp, hs, heq⟩ | heq
    · rw [heq] at h
      simp at h
    · rw [heq]

/-- Witness for the amended C1: with `"11201"` configured, the matching
advertisement pushes an update; with an empty mapping, the untouched
store is returned. -/
theorem C1_update_iff_serials_match_witness :
    (process_packet [("11201", none)] "AA:AA:AA:00:2B:C1"
        (payload_with 0)).2.isSome = true ∧
      (process_packet [] "AA:AA:AA:00:2B:C1" (payload_with 0)).1 = [] :=
  ⟨(C1_update_iff_serials_match [("11201", none)] "AA:AA:AA:00:2B:C1"
        (payload_with 0)).1.mpr
      ⟨"11201", _, by decide, by decide, by decide, rfl, by decide⟩,
    (C1_update_iff_serials_match [] "AA:AA:AA:00:2B:C1" (payload_with 0)).2
      (by decide)⟩

/-- Claim C2: an advertisement whose MAC-derived serial is not a key of
the coordinator mapping is dropped before the payload is even decoded:
the store is unchanged and no update is pushed, whatever `data` holds. -/
theorem C2_unconfigured_never_updates (st : CoordStore) (mac : String)
    (data : List Nat) (ms : String)
    (hm : extract_serial_from_mac mac = some ms)
    (hck : containsKey st ms = false) :
    process_packet st mac data = (st, none) := by
  by_cases hne : ms = ""
  · simp [process_packet, hm, hne]
  · simp [process_packet, hm, hne, hck]

/-- Witness for C2: serial `"7"` is not among the configured devices. -/
theorem C2_unconfigured_never_updates_witness :
    extract_serial_from_mac "AA:AA:AA:00:00:07" = some "7" ∧
      containsKey [("11201", none)] "7" = false ∧
      process_packet [("11201", none)] "AA:AA:AA:00:00:07" (payload_with 0) =
        ([("11201", none)], none) :=
  ⟨by decide, by decide,
    C2_unconfigured_never_updates [("11201", none)] "AA:AA:AA:00:00:07"
      (payload_with 0) "7" (by decide) (by decide)⟩

/-! ### Claim C10 — the `_detection_callback` entry filter -/

/-- Claim C10: on an advertisement with any number of manufacturer-data
entries, `_detection_callback` hands exactly the first entry (in map
iteration order) that is nonempty and starts with
`EXPECTED_FIRST_BYTE = 0x80` to `_process_packet`, ignoring all later
entries — so a single advertisement triggers at most the one store
update `_process_packet` may perform; with no matching entry nothing
happens. -/
theorem C10_first_matching_entry_only (st : CoordStore) (mac : String)
    (entries : List (Nat × List Nat)) :
    detection_callback st mac entries =
      match entries.find? (fun e => matchesElehant e.2) with
      | some e => process_packet st mac e.2
      | none => (st, none) := by
  induction entries with
  | nil => rfl
  | cons hd tl ih =>
    obtain ⟨mid, d⟩ := hd
    cases d with
    | nil =>
      simpa [detection_callback, List.find?, matchesElehant] using ih
    | cons b rest =>
      by_cases hb : b = EXPECTED_FIRST_BYTE
      · simp [detection_callback, List.find?, matchesElehant, hb]
      · have hbe : (b == EXPECTED_FIRST_BYTE) = false := by simp [hb]
        simpa [detection_callback, List.find?, matchesElehant, hb, hbe] using ih

/-! ### Claims C7 and C8 — the scanner lifecycle -/

/-- Counterexample for C7: calling `async_start` on a running scanner
returns normally with the state unchanged; the only effect is the
"Scanner already running" warning log — the method's result carries no
error value (its type has no error component), so no `AlreadyRunning`
error is returned. -/
theorem C7_counterexample_silent_return :
    async_start ⟨some (), some ()⟩ =
      (⟨some (), some ()⟩, [LogEvent.warnAlreadyRunning]) := rfl

/-- Claim C7 (amended): `async_start` on a running scanner (truthy
`self.scanner`) logs a warning and returns without error and without
touching the state, leaving the existing scanner and scan task intact;
only from a state with no scanner does it create the scanner and the
background scan task. -/
theorem C7_start_only_from_idle (s : ScannerState) :
    (s.scanner.isSome = true →
      async_start s = (s, [LogEvent.warnAlreadyRunning])) ∧
    (s.scanner = none →
      async_start s = (⟨some (), some ()⟩, [LogEvent.infoStarting])) := by
  constructor
  · intro h
    unfold async_start
    rw [if_pos h]
  · intro h
    unfold async_start
    rw [if_neg (by simp [h])]

/-- Witness for the amended C7 at the two concrete states. -/
theorem C7_start_only_from_idle_witness :
    async_start ⟨some (), some ()⟩ =
        (⟨some (), some ()⟩, [LogEvent.warnAlreadyRunning]) ∧
      async_start ⟨none, none⟩ =
        (⟨some (), some ()⟩, [LogEvent.infoStarting]) :=
  ⟨(C7_start_only_from_idle ⟨some (), some ()⟩).1 rfl,
    (C7_start_only_from_idle ⟨none, none⟩).2 rfl⟩

/-- Every reachable scanner state is either idle (no scanner, no task)
or running (scanner and task both present). -/
theorem reachable_scanner_cases (s : ScannerState) (h : ReachableScanner s) :
    s = ⟨none, none⟩ ∨ s = ⟨some (), some ()⟩ := by
  induction h with
  | init => exact Or.inl rfl
  | start _ ih =>
    rcases ih with rfl | rfl
    · exact Or.inr rfl
    · exact Or.inr rfl
  | stop _ ih =>
    rcases ih with rfl | rfl
    · exact Or.inl rfl
    · exact Or.inl rfl

/-- Claim C8: from any reachable scanner state, calling `async_stop`
twice in succession raises no error (both calls are total and return
normally) and leaves the idle state: no scan task and no scanner
subscription. -/
theorem C8_stop_twice_idle (s : ScannerState) (h : ReachableScanner s) :
    (async_stop (async_stop s).1).1 = ⟨none, none⟩ := by
  rcases reachable_scanner_cases s h with rfl | rfl
  · rfl
  · rfl

/-- Witness for C8 from the concrete running state. -/
theorem C8_stop_twice_idle_witness :
    (async_stop (async_stop ⟨some (), some ()⟩).1).1 =
      (⟨none, none⟩ : ScannerState) :=
  C8_stop_twice_idle ⟨some (), some ()⟩
    (ReachableScanner.start ReachableScanner.init)
